import Mathlib

/-!
Verification of the Weston Wolverine Brief data pipeline.

This file is a shallow embedding, in Lean 4, of the data acquisition and
aggregation pipeline of the repository (files `scraper.py`,
`generate_digest.py`).  Pure data transformations of the Python source are
translated into executable Lean definitions; the stateful parts (the two
snapshot files under `data/`, the sequence of HTTP page requests) are made
explicit as a store record and a page-oracle function.  The theorems at the
end of the file settle the specified properties of the pipeline against
these definitions.
-/

namespace Wolverine

/-! ### Permit summary entries and the summarizer

`generate_digest.summarise_permits` sorts the permit-summary dataframe by
its COUNT column, descending, and takes the first `top_n` rows.  A row of
that dataframe is a (WORK, COUNT) pair. -/

/-- A row of the permit-summary dataframe: a work type and its count. -/
structure PermitEntry where
  WORK : String
  COUNT : Nat
deriving DecidableEq, Repr

/-- Comparison by a natural-number key, used to model sorting a dataframe
column ascending. -/
def keyLe {α : Type} (key : α → Nat) : α → α → Prop := fun a b => key a ≤ key b

instance {α : Type} (key : α → Nat) : DecidableRel (keyLe key) :=
  fun a b => Nat.decLe (key a) (key b)

instance {α : Type} (key : α → Nat) : IsTotal α (keyLe key) :=
  ⟨fun a b => Nat.le_total (key a) (key b)⟩

instance {α : Type} (key : α → Nat) : IsTrans α (keyLe key) :=
  ⟨fun _ _ _ h h2 => Nat.le_trans h h2⟩

/-- Model of `df.sort_values(col, ascending=False)` on a column given by
`key`.  pandas computes a descending sort by reversing the input, running
the ascending argsort, and reversing the result again (`nargsort` in
`pandas/core/sorting.py`).  The argsort kernel is realized here as an
insertion sort so that the definition is executable; the default numpy
`kind='quicksort'` (introsort) guarantees the ordering by `key` but NOT
the relative order of equal keys, so only key-ordering consequences and
concrete evaluations without key ties may be read off this model. -/
def sortCountDesc {α : Type} (key : α → Nat) (l : List α) : List α :=
  (List.insertionSort (keyLe key) l.reverse).reverse

/-- Embedding of `generate_digest.summarise_permits`: on an empty dataframe
return the empty list, otherwise sort by COUNT descending and keep the
first `top_n` rows (`.head(top_n)`). -/
def summarise_permits (permits : List PermitEntry) (top_n : Nat) : List PermitEntry :=
  if permits.isEmpty then []
  else (sortCountDesc PermitEntry.COUNT permits).take top_n

/-- Embedding of the `permits_total` computation in `generate_digest.main`:
`int(permits["COUNT"].sum()) if not permits.empty else 0`. -/
def permits_total (permits : List PermitEntry) : Nat :=
  if permits.isEmpty then 0 else (permits.map PermitEntry.COUNT).sum

/-! ### value_counts

`pandas.Series.value_counts` produces one (value, count) pair per distinct
value, sorted by count descending.  The distinct values are collected in
first-encounter order and then sorted by the descending-count sort. -/

/-- Helper for `dedupFirst`: drop values already seen. -/
def dedupFirstAux {α : Type} [DecidableEq α] (seen : List α) : List α → List α
  | [] => []
  | x :: xs => if x ∈ seen then dedupFirstAux seen xs
               else x :: dedupFirstAux (x :: seen) xs

/-- Distinct values of a list, keeping the first occurrence of each, in
encounter order. -/
def dedupFirst {α : Type} [DecidableEq α] (l : List α) : List α :=
  dedupFirstAux [] l

/-- Embedding of `Series.value_counts()` (as used on the WORK and
MCI_CATEGORY columns): occurrence counts of the distinct values, sorted by
count descending. -/
def value_counts {α : Type} [DecidableEq α] (l : List α) : List (α × Nat) :=
  sortCountDesc Prod.snd
    ((dedupFirst l).map (fun x => (x, l.countP (fun y => decide (y = x)))))

/-! ### The crime fetcher (`scraper.fetch_crime_data`)

The ArcGIS endpoint is abstracted as a page oracle: for each
`resultOffset` it yields the JSON envelope of the successful response to
the query built from `start_date` and the neighbourhood filter.  The
features array of the envelope may be absent (`data.get("features", [])`).
A raised transport or HTTP error is outside this oracle; the behaviour of
`scraper.main` on a raised error is modelled separately below. -/

/-- One fetched crime record (the `attributes` object of a feature):
columns OCC_DATE (epoch milliseconds), OFFENCE, MCI_CATEGORY,
NEIGHBOURHOOD_158. -/
structure CrimeRec where
  OCC_DATE : Int
  OFFENCE : String
  MCI_CATEGORY : String
  NEIGHBOURHOOD_158 : String
deriving DecidableEq, Repr

/-- The JSON envelope of one successful page response: a `features` array
that may be missing. -/
structure PageResponse where
  features : Option (List CrimeRec)
deriving Repr

/-- The feature list of a response: `data.get("features", [])`. -/
def PageResponse.feats (resp : PageResponse) : List CrimeRec :=
  resp.features.getD []

/-- Embedding of the inner loop of `fetch_crime_data`:
append the attributes of each feature to `records`, breaking as soon as
`len(records) >= max_records`. -/
def appendUpTo (maxRecords : Nat) (records : List CrimeRec) :
    List CrimeRec → List CrimeRec
  | [] => records
  | f :: rest =>
    if maxRecords ≤ (records ++ [f]).length then records ++ [f]
    else appendUpTo maxRecords (records ++ [f]) rest

theorem appendUpTo_length_le (m : Nat) :
    ∀ (feats records : List CrimeRec),
      records.length ≤ (appendUpTo m records feats).length
  | [], _ => Nat.le_refl _
  | f :: rest, records => by
    show records.length ≤
      (if m ≤ (records ++ [f]).length then records ++ [f]
       else appendUpTo m (records ++ [f]) rest).length
    by_cases hc : m ≤ (records ++ [f]).length
    · rw [if_pos hc]
      simp
    · rw [if_neg hc]
      calc records.length ≤ (records ++ [f]).length := by simp
        _ ≤ _ := appendUpTo_length_le m rest (records ++ [f])

theorem appendUpTo_length_lt (m : Nat) (records : List CrimeRec)
    (feats : List CrimeRec) (h : feats ≠ []) :
    records.length < (appendUpTo m records feats).length := by
  cases feats with
  | nil => exact absurd rfl h
  | cons f rest =>
    show records.length <
      (if m ≤ (records ++ [f]).length then records ++ [f]
       else appendUpTo m (records ++ [f]) rest).length
    by_cases hc : m ≤ (records ++ [f]).length
    · rw [if_pos hc]
      simp
    · rw [if_neg hc]
      calc records.length < (records ++ [f]).length := by simp
        _ ≤ _ := appendUpTo_length_le m rest (records ++ [f])

/-- Embedding of the pagination loop of `fetch_crime_data`.  The result is
the accumulated record list paired with the number of page requests issued
from this state on.  The page size `2000` is the literal `per_page` of the
source.  Stopping on an empty (or absent) feature array, on a short page,
or on reaching `max_records` are the three normal exits of the source. -/
def fetchLoop (server : Nat → PageResponse) (maxRecords : Nat)
    (records : List CrimeRec) (offset : Nat) : List CrimeRec × Nat :=
  if ((server offset).feats).isEmpty then (records, 1)
  else
    if ((server offset).feats).length < 2000 ∨
        maxRecords ≤ (appendUpTo maxRecords records (server offset).feats).length then
      (appendUpTo maxRecords records (server offset).feats, 1)
    else
      ((fetchLoop server maxRecords
          (appendUpTo maxRecords records (server offset).feats) (offset + 2000)).1,
       (fetchLoop server maxRecords
          (appendUpTo maxRecords records (server offset).feats) (offset + 2000)).2 + 1)
termination_by maxRecords - records.length
decreasing_by
  all_goals {
    rename_i hne hcont
    push_neg at hcont
    have hfe : (server offset).feats ≠ [] := by
      simpa using hne
    have hlt : records.length <
        (appendUpTo maxRecords records (server offset).feats).length :=
      appendUpTo_length_lt maxRecords records _ hfe
    exact Nat.sub_lt_sub_left (Nat.lt_of_lt_of_le hlt (Nat.le_of_lt hcont.2)) hlt
  }

/-- Embedding of `fetch_crime_data` (records only): start with an empty
record list at offset 0.  The date and neighbourhood filters are folded
into the server oracle (they only shape the WHERE clause of each
request). -/
def fetch_crime_data (server : Nat → PageResponse) (maxRecords : Nat) :
    List CrimeRec :=
  (fetchLoop server maxRecords [] 0).1

/-- Number of page requests `fetch_crime_data` issues against `server`. -/
def fetch_crime_requests (server : Nat → PageResponse) (maxRecords : Nat) :
    Nat :=
  (fetchLoop server maxRecords [] 0).2

/-! ### Cells, CSV serialization, and the snapshot store

`scraper.save_dataframe` writes a dataframe with `df.to_csv(path,
index=False)`; `generate_digest.load_data` reads the snapshot back with
`pd.read_csv`.  A cell of a dataframe is modelled as an integer, a plain
string, a `datetime.date` value, or NaN; writing a cell produces its text
(str() of the value, the empty text for NaN), and reading a cell applies
the per-cell type inference of pandas (empty text is NaN, integer-shaped text is
an integer, anything else stays text).  A CSV file is modelled at the
lexical level pandas guarantees (quoting is transparent): a header row and
one list of cell texts per data row; cell texts are kept as character
lists. -/

/-- Numeric value of a decimal digit character. -/
def charVal (c : Char) : Nat := c.toNat - 48

/-- Digits of `n` written most-significant first, by repeated division;
`fuel` bounds the recursion and any `fuel ≥ n` is exact. -/
def natCharsCore (fuel : Nat) (n : Nat) : List Char :=
  match fuel with
  | 0 => []
  | fuel2 + 1 =>
    if n = 0 then []
    else natCharsCore fuel2 (n / 10) ++ [Nat.digitChar (n % 10)]

/-- Decimal text of a natural number, as produced by Python `str`. -/
def natChars (n : Nat) : List Char :=
  if n = 0 then ['0'] else natCharsCore n n

/-- Decimal text of an integer, as produced by Python `str`. -/
def intChars (k : Int) : List Char :=
  if k < 0 then '-' :: natChars k.natAbs else natChars k.natAbs

/-- Zero-padding to width `w`, as in the `%04d` / `%02d` format fields of
Python `str(datetime.date(...))`. -/
def padChars (w : Nat) (cs : List Char) : List Char :=
  List.replicate (w - cs.length) '0' ++ cs

/-- ISO-8601 text of a `datetime.date`, as produced by Python `str`. -/
def dateChars (y m d : Nat) : List Char :=
  padChars 4 (natChars y) ++ '-' :: (padChars 2 (natChars m) ++ '-' :: padChars 2 (natChars d))

/-- Parse of a decimal natural number, as in the pandas integer inference:
the text must be non-empty and all digits. -/
def parseNatChars (cs : List Char) : Option Nat :=
  if cs.isEmpty then none
  else if cs.all Char.isDigit then
    some (cs.foldl (fun a c => 10 * a + charVal c) 0)
  else none

/-- Parse of a decimal integer with an optional leading minus sign. -/
def parseIntChars (cs : List Char) : Option Int :=
  match cs with
  | [] => none
  | c :: rest =>
    if c = '-' then
      match parseNatChars rest with
      | some n => some (-(n : Int))
      | none => none
    else
      match parseNatChars (c :: rest) with
      | some n => some ((n : Int))
      | none => none

/-- Parse of the ISO-8601 date text `YYYY-MM-DD`, the `to_datetime` input
grammar arising from the modelled cells.  (The full `to_datetime` grammar
of pandas is larger; texts outside the modelled cell universe are not
covered.) -/
def parseDateChars (cs : List Char) : Option (Nat × Nat × Nat) :=
  match cs with
  | [a, b, c, d, s1, e, f, s2, g, h] =>
    if s1 = '-' && s2 = '-' && [a, b, c, d, e, f, g, h].all Char.isDigit then
      some ([a, b, c, d].foldl (fun acc ch => 10 * acc + charVal ch) 0,
            [e, f].foldl (fun acc ch => 10 * acc + charVal ch) 0,
            [g, h].foldl (fun acc ch => 10 * acc + charVal ch) 0)
    else none
  | _ => none

/-- A dataframe cell: integer, text, `datetime.date`, NaN, an
integer-valued float64 (as produced by reading an integer column that
contains missing fields), or a `Timestamp` (as produced by
`parse_dates`). -/
inductive Cell where
  | int (k : Int)
  | str (s : String)
  | date (y m d : Nat)
  | nan
  | float (k : Int)
  | timestamp (y m d : Nat)
deriving DecidableEq, Repr

/-- Text written for a cell by `df.to_csv` (NaN becomes the empty
field; an integer-valued float64 prints with a trailing `.0`; a midnight
Timestamp prints with a zero time part). -/
def cellWrite : Cell → List Char
  | .int k => intChars k
  | .str s => s.data
  | .date y m d => dateChars y m d
  | .nan => []
  | .float k => intChars k ++ '.' :: ['0']
  | .timestamp y m d => dateChars y m d ++ ' ' :: ("00:00:00".data)

/-- Text of a cell under Python `str` / pandas `astype(str)` (NaN prints
as `nan`). -/
def pdStr : Cell → String
  | .int k => String.mk (intChars k)
  | .str s => s
  | .date y m d => String.mk (dateChars y m d)
  | .nan => "nan"
  | .float k => String.mk (intChars k ++ '.' :: ['0'])
  | .timestamp y m d => String.mk (dateChars y m d ++ ' ' :: ("00:00:00".data))

/-- A dataframe: a header naming the columns and the rows of cells. -/
structure DataFrame where
  header : List String
  rows : List (List Cell)
deriving DecidableEq, Repr

/-- A snapshot file as written by `to_csv(..., index=False)`: the header
row and the written text of every cell of every row.  The file is
modelled at the lexical level pandas guarantees (quoting is transparent):
one list of field texts per data row. -/
structure CSVFile where
  header : List String
  lines : List (List (List Char))
deriving DecidableEq, Repr

/-- Embedding of `scraper.save_dataframe` (the CSV text it writes for a
dataframe). -/
def save_dataframe (df : DataFrame) : CSVFile :=
  ⟨df.header, df.rows.map (fun row => row.map cellWrite)⟩

/-- Whether a written row is a physically blank line: the comma-joined
text of its fields is empty, which happens exactly when there is at most
one field and it is empty.  `pd.read_csv` skips such lines
(`skip_blank_lines=True` by default). -/
def lineIsBlank : List (List Char) → Bool
  | [] => true
  | [cs] => cs.isEmpty
  | _ => false

/-- The data lines `pd.read_csv` actually parses: blank lines are
skipped. -/
def csvLines (f : CSVFile) : List (List (List Char)) :=
  f.lines.filter (fun l => !lineIsBlank l)

/-- The dtype `pd.read_csv` infers for one column of field texts within
the modelled fragment: all integer-shaped → int64; integer-shaped with
missing fields (or all missing) → float64; otherwise object.  (Float-,
boolean- and NA-token-shaped texts of the full pandas inference do not
arise from well-behaved cells and are excluded by `inertStrB` rather than
modelled.) -/
inductive ColKind where
  | intCol
  | floatCol
  | objCol
deriving DecidableEq, Repr

/-- Infer the dtype of a column from its field texts. -/
def inferKind (ts : List (List Char)) : ColKind :=
  if ts.all (fun t => !t.isEmpty && (parseIntChars t).isSome) then .intCol
  else if ts.all (fun t => t.isEmpty || (parseIntChars t).isSome) then .floatCol
  else .objCol

/-- The cell a field text denotes under its column dtype: integers parse
in an int64 column, integers become floats and missing fields NaN in a
float64 column, and an object column keeps non-empty texts verbatim. -/
def readCellK : ColKind → List Char → Cell
  | .intCol, t =>
    match parseIntChars t with
    | some k => .int k
    | none => .nan
  | .floatCol, t =>
    if t.isEmpty then .nan
    else
      match parseIntChars t with
      | some k => .float k
      | none => .nan
  | .objCol, t =>
    if t.isEmpty then .nan else .str (String.mk t)

/-- The inferred dtypes of all columns of a snapshot file. -/
def csvKinds (f : CSVFile) : List ColKind :=
  (List.range f.header.length).map
    (fun j => inferKind ((csvLines f).map (fun l => l.getD j [])))

/-- Embedding of a plain `pd.read_csv` of a snapshot file (as used for
`permit_summary.csv`): skip blank lines, infer each column dtype, and read
every field under its column dtype. -/
def readCSV (f : CSVFile) : DataFrame :=
  ⟨f.header,
   (csvLines f).map (fun l => List.zipWith readCellK (csvKinds f) l)⟩

/-- The midnight `Timestamp` a field of a successfully date-parsed column
denotes (missing fields become NaT). -/
def tsCell (t : List Char) : Cell :=
  if t.isEmpty then .nan
  else
    match parseDateChars t with
    | some (y, m, d) => .timestamp y m d
    | none => .nan

/-- The error `pd.read_csv(..., parse_dates=["OCC_DATE"])` raises when the
file has no OCC_DATE column. -/
inductive ReadError where
  | missingOccDate
deriving DecidableEq, Repr

/-- Embedding of `pd.read_csv(crimes_path, parse_dates=["OCC_DATE"])`: a
missing OCC_DATE column raises; otherwise the file is read normally and
the OCC_DATE column is converted to Timestamps when every field of it
parses as a date (a failed conversion leaves the column as read). -/
def read_crimes_csv (f : CSVFile) : Except ReadError DataFrame :=
  if "OCC_DATE" ∈ f.header then
    let j := f.header.indexOf "OCC_DATE"
    if (csvLines f).all
        (fun l => (l.getD j []).isEmpty || (parseDateChars (l.getD j [])).isSome) then
      .ok ⟨f.header,
        (csvLines f).map (fun l =>
          (List.zipWith readCellK (csvKinds f) l).set j (tsCell (l.getD j [])))⟩
    else .ok (readCSV f)
  else .error .missingOccDate

/-- The two snapshot files of the `data/` directory; `none` means the file
does not exist. -/
structure Store where
  crimesFile : Option CSVFile
  permitsFile : Option CSVFile
deriving DecidableEq, Repr

/-- Column set of the empty crimes fallback in
`generate_digest.load_data`. -/
def crimeCols : List String :=
  ["OCC_DATE", "OFFENCE", "MCI_CATEGORY", "NEIGHBOURHOOD_158", "DATE"]

/-- The permits half of `generate_digest.load_data`: read the snapshot if
its file exists, else an empty frame with the expected columns. -/
def load_permits (st : Store) : DataFrame :=
  match st.permitsFile with
  | some f => readCSV f
  | none => ⟨["WORK", "COUNT"], []⟩

/-- Embedding of `generate_digest.load_data`: the crimes snapshot is read
with `parse_dates=["OCC_DATE"]` when its file exists (which can raise),
the permits snapshot with a plain `read_csv`; a missing file falls back to
an empty dataframe with the expected columns. -/
def load_data (st : Store) : Except ReadError (DataFrame × DataFrame) :=
  match st.crimesFile with
  | some f =>
    match read_crimes_csv f with
    | .error e => .error e
    | .ok crimes => .ok (crimes, load_permits st)
  | none => .ok (⟨crimeCols, []⟩, load_permits st)

/-! ### The permit extractor (`scraper.fetch_permit_summary`)

The first `rows` parsed rows of the remote CSV are the input; each has a
POSTAL field (any cell value, coerced with `astype(str)`) and a WORK
field. -/

/-- One parsed row of the building-permits CSV (the two fields the
extractor touches). -/
structure PermitRow where
  POSTAL : Cell
  WORK : String
deriving DecidableEq, Repr

/-- Python `str.startswith`: the code points of `p` are an initial
segment of the code points of `s`. -/
def str_startswith (s p : String) : Bool := p.data.isPrefixOf s.data

/-- The row filter of `fetch_permit_summary`:
`df[df["POSTAL"].astype(str).str.startswith(postal_prefix)]`. -/
def postal_filter (pfx : String) (rows : List PermitRow) : List PermitRow :=
  rows.filter (fun r => str_startswith (pdStr r.POSTAL) pfx)

/-- Embedding of `scraper.fetch_permit_summary` after download: filter by
postal prefix, then `value_counts` of the WORK column as (WORK, COUNT)
entries. -/
def fetch_permit_summary (pfx : String) (rows : List PermitRow) :
    List PermitEntry :=
  (value_counts ((postal_filter pfx rows).map PermitRow.WORK)).map
    (fun wc => ⟨wc.1, wc.2⟩)

/-! ### The acquisition step (`scraper.main`)

`main` runs the crime fetch, conditionally saves it, then runs the permit
fetch and saves it.  The two fetches are abstracted as their outcomes
(either raised error or returned dataframe); `main` has no exception
handler, so a raised error propagates and ends the run.  The second
component of the result records whether control reached the
`fetch_permit_summary()` call. -/

/-- A raised fetch failure: a transport-level error or a non-success HTTP
status (`response.raise_for_status()`). -/
inductive FetchError where
  | transport
  | httpStatus (code : Nat)
deriving DecidableEq, Repr

/-- Embedding of `scraper.main`: result of the run (the final store, or
the propagated error) paired with whether `fetch_permit_summary` was
invoked. -/
def scraper_main (crimeResult : Except FetchError DataFrame)
    (permitResult : Except FetchError DataFrame) (st : Store) :
    Except FetchError Store × Bool :=
  match crimeResult with
  | .error e => (.error e, false)
  | .ok crimes =>
    let st1 : Store :=
      if crimes.rows.isEmpty then st
      else ⟨some (save_dataframe crimes), st.permitsFile⟩
    match permitResult with
    | .error e => (.error e, true)
    | .ok permits =>
      (.ok ⟨st1.crimesFile, some (save_dataframe permits)⟩, true)

/-! ### The digest step (`generate_digest.main`)

Dates in the fallback branch of the digest are `datetime.date` values; they are
modelled as integer day numbers, on which `today - timedelta(days=7)` is
subtraction of 7.  The data branch takes the min and max of the loaded
DATE column, whose values are cells. -/

/-- Column of a dataframe by name (empty when the column is absent). -/
def DataFrame.col (df : DataFrame) (name : String) : List Cell :=
  match df.header.indexOf? name with
  | some i => df.rows.filterMap (fun row => row.get? i)
  | none => []

/-- Embedding of `generate_digest.summarise_crimes`:
`crimes["MCI_CATEGORY"].value_counts().to_dict()` as an association
list. -/
def summarise_crimes (crimes : DataFrame) : List (Cell × Nat) :=
  value_counts (crimes.col "MCI_CATEGORY")

/-- Total-order comparison used by pandas `Series.min`/`Series.max` on the
cell values of a column (cells of distinct shapes are left in input
order). -/
def cellLeB : Cell → Cell → Bool
  | .int a, .int b => a ≤ b
  | .str a, .str b => a < b || a == b
  | .date y1 m1 d1, .date y2 m2 d2 =>
    (y1 < y2) || (y1 == y2 && (m1 < m2 || (m1 == m2 && d1 ≤ d2)))
  | _, _ => false

/-- `Series.min()`: `none` on an empty column (pandas NaN). -/
def cellsMin : List Cell → Option Cell
  | [] => none
  | c :: cs => some (cs.foldl (fun a b => if cellLeB b a then b else a) c)

/-- `Series.max()`: `none` on an empty column (pandas NaN). -/
def cellsMax : List Cell → Option Cell
  | [] => none
  | c :: cs => some (cs.foldl (fun a b => if cellLeB a b then b else a) c)

/-- A week boundary of the digest: either a value of the loaded DATE
column, or the fallback day number computed from today. -/
inductive DateBound where
  | fromData (c : Option Cell)
  | fallback (day : Int)
deriving DecidableEq, Repr

/-- Embedding of the `start_date` choice in `generate_digest.main`:
`crimes["DATE"].min()` when crimes are present, else
`today - timedelta(days=7)`. -/
def digest_start (crimes : DataFrame) (today : Int) : DateBound :=
  if crimes.rows.isEmpty then .fallback (today - 7)
  else .fromData (cellsMin (crimes.col "DATE"))

/-- Embedding of the `end_date` choice in `generate_digest.main`:
`crimes["DATE"].max()` when crimes are present, else `today`. -/
def digest_end (crimes : DataFrame) (today : Int) : DateBound :=
  if crimes.rows.isEmpty then .fallback today
  else .fromData (cellsMax (crimes.col "DATE"))

/-- Embedding of `total_crimes=len(crimes)` in `generate_digest.main`. -/
def total_crimes (crimes : DataFrame) : Nat := crimes.rows.length

/-- A fixed crime record used in concrete test servers. -/
def demoRec : CrimeRec := ⟨0, "", "", ""⟩

/-- A test server that answers the offsets 0, 2000 and 4000 with pages of
2000, 2000 and 500 features, and further offsets with empty pages. -/
def c8Server : Nat → PageResponse := fun offset =>
  if offset = 0 then ⟨some (List.replicate 2000 demoRec)⟩
  else if offset = 2000 then ⟨some (List.replicate 2000 demoRec)⟩
  else if offset = 4000 then ⟨some (List.replicate 500 demoRec)⟩
  else ⟨some []⟩

/-! ### Lemmas about the pagination loop -/

theorem appendUpTo_le_max (m : Nat) :
    ∀ (feats records : List CrimeRec), records.length < m →
      (appendUpTo m records feats).length ≤ m
  | [], _, h => Nat.le_of_lt h
  | f :: rest, records, h => by
    show (if m ≤ (records ++ [f]).length then records ++ [f]
          else appendUpTo m (records ++ [f]) rest).length ≤ m
    by_cases hc : m ≤ (records ++ [f]).length
    · rw [if_pos hc]
      simp only [List.length_append, List.length_cons, List.length_nil]
      omega
    · rw [if_neg hc]
      exact appendUpTo_le_max m rest (records ++ [f]) (by omega)

theorem mem_appendUpTo (m : Nat) :
    ∀ (feats records : List CrimeRec) (x : CrimeRec),
      x ∈ appendUpTo m records feats → x ∈ records ∨ x ∈ feats
  | [], _, _, h => Or.inl h
  | f :: rest, records, x, h => by
    have e : appendUpTo m records (f :: rest) =
        if m ≤ (records ++ [f]).length then records ++ [f]
        else appendUpTo m (records ++ [f]) rest := rfl
    rw [e] at h
    by_cases hc : m ≤ (records ++ [f]).length
    · rw [if_pos hc] at h
      rcases List.mem_append.mp h with h2 | h2
      · exact Or.inl h2
      · simp only [List.mem_singleton] at h2
        exact Or.inr (h2 ▸ List.mem_cons_self x rest)
    · rw [if_neg hc] at h
      rcases mem_appendUpTo m rest (records ++ [f]) x h with h2 | h2
      · rcases List.mem_append.mp h2 with h3 | h3
        · exact Or.inl h3
        · simp only [List.mem_singleton] at h3
          exact Or.inr (h3 ▸ List.mem_cons_self x rest)
      · exact Or.inr (List.mem_cons_of_mem f h2)

theorem appendUpTo_eq_append (m : Nat) :
    ∀ (feats records : List CrimeRec),
      records.length + feats.length ≤ m →
      appendUpTo m records feats = records ++ feats
  | [], records, _ => by simp [appendUpTo]
  | f :: rest, records, h => by
    have e : appendUpTo m records (f :: rest) =
        if m ≤ (records ++ [f]).length then records ++ [f]
        else appendUpTo m (records ++ [f]) rest := rfl
    rw [e]
    simp only [List.length_cons] at h
    by_cases hc : m ≤ (records ++ [f]).length
    · have hc2 : m ≤ records.length + 1 := by simpa using hc
      have hrest : rest = [] := by
        cases rest with
        | nil => rfl
        | cons g gs =>
          exfalso
          simp only [List.length_cons] at h
          omega
      rw [if_pos hc, hrest]
    · rw [if_neg hc]
      rw [appendUpTo_eq_append m rest (records ++ [f])
        (by simp only [List.length_append, List.length_cons, List.length_nil]; omega)]
      simp

theorem fetchLoop_length_le (server : Nat → PageResponse) (m : Nat) :
    ∀ (records : List CrimeRec) (offset : Nat), records.length < m →
      (fetchLoop server m records offset).1.length ≤ m := by
  intro records offset
  induction records, offset using fetchLoop.induct server m with
  | case1 records offset hfeats =>
    intro h
    rw [fetchLoop, if_pos hfeats]
    exact Nat.le_of_lt h
  | case2 records offset hfeats hstop =>
    intro h
    rw [fetchLoop, if_neg hfeats, if_pos hstop]
    exact appendUpTo_le_max m _ records h
  | case3 records offset hfeats hcont ih =>
    intro h
    rw [fetchLoop, if_neg hfeats, if_neg hcont]
    push_neg at hcont
    have h2 := hcont.2
    exact ih (by omega)

theorem fetchLoop_mem (server : Nat → PageResponse) (m : Nat)
    (P : CrimeRec → Prop)
    (hserver : ∀ offset r, r ∈ (server offset).feats → P r) :
    ∀ (records : List CrimeRec) (offset : Nat), (∀ r ∈ records, P r) →
      ∀ r ∈ (fetchLoop server m records offset).1, P r := by
  intro records offset
  induction records, offset using fetchLoop.induct server m with
  | case1 records offset hfeats =>
    intro hrec r hr
    rw [fetchLoop, if_pos hfeats] at hr
    exact hrec r hr
  | case2 records offset hfeats hstop =>
    intro hrec r hr
    rw [fetchLoop, if_neg hfeats, if_pos hstop] at hr
    rcases mem_appendUpTo m _ records r hr with h2 | h2
    · exact hrec r h2
    · exact hserver offset r h2
  | case3 records offset hfeats hcont ih =>
    intro hrec r hr
    rw [fetchLoop, if_neg hfeats, if_neg hcont] at hr
    refine ih (fun r2 hr2 => ?_) r hr
    rcases mem_appendUpTo m _ records r2 hr2 with h2 | h2
    · exact hrec r2 h2
    · exact hserver offset r2 h2

/-- C10: a success-status page whose JSON body has no `features` key, or
an empty `features` array, is treated as end-of-data: the pagination loop
stops after that single request and returns the records accumulated so far
as a normal result (no error is raised — the function returns a value). -/
theorem c10_empty_features_normal_stop (server : Nat → PageResponse) (m : Nat)
    (records : List CrimeRec) (offset : Nat)
    (h : (server offset).features = none ∨ (server offset).features = some []) :
    fetchLoop server m records offset = (records, 1) := by
  have hf : (server offset).feats = [] := by
    rcases h with h | h <;> simp [PageResponse.feats, h]
  rw [fetchLoop]
  simp [hf]

theorem fetchLoop_step_full (server : Nat → PageResponse) (m : Nat)
    (records : List CrimeRec) (offset : Nat)
    (h1 : (server offset).feats.length = 2000)
    (h2 : records.length + 2000 < m) :
    fetchLoop server m records offset =
      ((fetchLoop server m (records ++ (server offset).feats) (offset + 2000)).1,
       (fetchLoop server m (records ++ (server offset).feats) (offset + 2000)).2 + 1) := by
  have hne : ¬ (server offset).feats.isEmpty = true := by
    simp only [List.isEmpty_iff]
    intro h
    rw [h] at h1
    simp at h1
  have happ : appendUpTo m records (server offset).feats =
      records ++ (server offset).feats :=
    appendUpTo_eq_append m _ records (by omega)
  rw [fetchLoop, if_neg hne, happ, if_neg (by simp [h1]; omega)]

theorem fetchLoop_last_short (server : Nat → PageResponse) (m : Nat)
    (records : List CrimeRec) (offset : Nat)
    (h1 : (server offset).feats ≠ [])
    (h2 : (server offset).feats.length < 2000)
    (h3 : records.length + (server offset).feats.length ≤ m) :
    fetchLoop server m records offset =
      (records ++ (server offset).feats, 1) := by
  have happ : appendUpTo m records (server offset).feats =
      records ++ (server offset).feats :=
    appendUpTo_eq_append m _ records h3
  rw [fetchLoop, if_neg (by simpa using h1), happ, if_pos (Or.inl h2)]

/-! ### Correctness of the decimal text round trip -/

/-- C1 (counterexample to the claim as stated): in a run of the
acquisition step in which `fetch_crime_data` raises a transport error,
`fetch_permit_summary` is not invoked. -/
theorem c1_counterexample :
    (scraper_main (Except.error FetchError.transport)
      (Except.ok ⟨["WORK", "COUNT"], [[Cell.str "Deck", Cell.int 3]]⟩)
      ⟨none, none⟩).2 = false := rfl

/-- C1 (amended): `scraper.main` has no exception handler, so a failure of
`fetch_crime_data` propagates and aborts the run before
`fetch_permit_summary` is invoked; the permit fetch is reached exactly
when the crime fetch returns normally. -/
theorem c1_crime_failure_aborts_run :
    (∀ (e : FetchError) (p : Except FetchError DataFrame) (st : Store),
      scraper_main (Except.error e) p st = (Except.error e, false)) ∧
    (∀ (c : DataFrame) (p : Except FetchError DataFrame) (st : Store),
      (scraper_main (Except.ok c) p st).2 = true) := by
  constructor
  · intro e p st
    rfl
  · intro c p st
    cases p <;> rfl

/-- C4 (counterexample to the claim as stated): a completed run whose
fetched crime dataset is empty does not overwrite the crime snapshot; the
prior crime snapshot content survives the run. -/
theorem c4_counterexample :
    (scraper_main (Except.ok ⟨crimeCols, []⟩)
       (Except.ok ⟨["WORK", "COUNT"], [[Cell.str "Deck", Cell.int 3]]⟩)
       ⟨some (save_dataframe ⟨["A"], [[Cell.int 1]]⟩), none⟩).1 =
      Except.ok ⟨some (save_dataframe ⟨["A"], [[Cell.int 1]]⟩),
        some (save_dataframe ⟨["WORK", "COUNT"],
          [[Cell.str "Deck", Cell.int 3]]⟩)⟩ ∧
    save_dataframe (⟨["A"], [[Cell.int 1]]⟩ : DataFrame) ≠
      save_dataframe ⟨crimeCols, []⟩ := by
  exact ⟨rfl, by decide⟩

/-- C4 (amended): a completed run always overwrites the permit-summary
snapshot with the fetched data, and overwrites the crime snapshot exactly
when the fetched crime dataset is non-empty; an empty crime fetch leaves
the prior crime snapshot in place. -/
theorem c4_overwrite_on_completed_run (c p : DataFrame) (st : Store) :
    scraper_main (Except.ok c) (Except.ok p) st =
      (Except.ok ⟨if c.rows.isEmpty then st.crimesFile
                  else some (save_dataframe c),
        some (save_dataframe p)⟩, true) := by
  by_cases h : c.rows.isEmpty <;> simp [scraper_main, h]

/-- C5: the reported permits total equals the sum of COUNT over ALL
entries, independently of any `top_n` truncation; on the example entries
Deck 10, Fence 7, Roof 3 with `top_n = 1` the total is 20 while a single
entry Deck 10 is returned. -/
theorem c5_totals_before_truncation :
    (∀ l : List PermitEntry, permits_total l = (l.map PermitEntry.COUNT).sum) ∧
    permits_total [⟨"Deck", 10⟩, ⟨"Fence", 7⟩, ⟨"Roof", 3⟩] = 20 ∧
    summarise_permits [⟨"Deck", 10⟩, ⟨"Fence", 7⟩, ⟨"Roof", 3⟩] 1 =
      [⟨"Deck", 10⟩] := by
  refine ⟨?_, by decide, by decide⟩
  intro l
  cases l with
  | nil => rfl
  | cons x xs => rfl

/-- C6: when the crime snapshot file does not exist, `load_data` succeeds
and returns an empty event collection with the expected columns,
`summarise_crimes` on it is the empty mapping, the crime total is 0, and
the digest date range falls back to `[today - 7, today]` with start ≤
end. -/
theorem c6_missing_crime_snapshot (st : Store) (today : Int)
    (h : st.crimesFile = none) :
    load_data st = Except.ok (⟨crimeCols, []⟩, load_permits st) ∧
    summarise_crimes ⟨crimeCols, []⟩ = [] ∧
    total_crimes ⟨crimeCols, []⟩ = 0 ∧
    digest_start ⟨crimeCols, []⟩ today = DateBound.fallback (today - 7) ∧
    digest_end ⟨crimeCols, []⟩ today = DateBound.fallback today ∧
    today - 7 ≤ today := by
  obtain ⟨cf, pf⟩ := st
  simp only at h
  subst h
  exact ⟨rfl, rfl, rfl, rfl, rfl, by omega⟩

/-- C6 witness: the fallback behaviour at the concrete store with no
snapshot files and day number 100. -/
theorem c6_witness :
    load_data ⟨none, none⟩ =
      Except.ok (⟨crimeCols, []⟩, load_permits ⟨none, none⟩) ∧
    summarise_crimes ⟨crimeCols, []⟩ = [] ∧
    total_crimes ⟨crimeCols, []⟩ = 0 ∧
    digest_start ⟨crimeCols, []⟩ 100 = DateBound.fallback (100 - 7) ∧
    digest_end ⟨crimeCols, []⟩ 100 = DateBound.fallback 100 ∧
    (100 : Int) - 7 ≤ 100 :=
  c6_missing_crime_snapshot ⟨none, none⟩ 100 rfl

/-- C7 (counterexample to the claim as stated): with `max_records = 0` and
a server returning a non-empty page, `fetch_crime_data` returns one record
— more than `max_records` — because the inner loop appends a feature
before checking the cap. -/
theorem c7_counterexample :
    ¬ ((fetch_crime_data (fun _ => ⟨some [demoRec]⟩) 0).length ≤ 0) := by
  have h : fetchLoop (fun _ => ⟨some [demoRec]⟩) 0 [] 0 = ([demoRec], 1) := by
    rw [fetchLoop, if_neg (by decide), if_pos (by decide)]
    decide
  rw [fetch_crime_data, h]
  decide

/-- C7 (amended): for every page oracle, every `max_records ≥ 1` and every
start date the oracle honours server-side, the fetched sequence has length
at most `max_records` and the occurrence date of every returned record is on or
after the start date. -/
theorem c7_fetch_bounds (server : Nat → PageResponse) (m : Nat)
    (startMs : Int) (hm : 1 ≤ m)
    (hserver : ∀ offset r, r ∈ (server offset).feats → startMs ≤ r.OCC_DATE) :
    (fetch_crime_data server m).length ≤ m ∧
    ∀ r ∈ fetch_crime_data server m, startMs ≤ r.OCC_DATE := by
  constructor
  · exact fetchLoop_length_le server m [] 0
      (by simp only [List.length_nil]; omega)
  · exact fetchLoop_mem server m (fun r => startMs ≤ r.OCC_DATE) hserver [] 0
      (by intro r hr; exact absurd hr (List.not_mem_nil r))

/-- C7 witness: the bounds at a concrete single-page server whose record
dates the predicate start date 3. -/
theorem c7_witness :
    (fetch_crime_data (fun _ => ⟨some [⟨5, "a", "b", "c"⟩]⟩) 10).length ≤ 10 ∧
    ∀ r ∈ fetch_crime_data (fun _ => ⟨some [⟨5, "a", "b", "c"⟩]⟩) 10,
      (3 : Int) ≤ r.OCC_DATE :=
  c7_fetch_bounds _ 10 3 (by decide)
    (by
      intro offset r h
      have hr : r = ⟨5, "a", "b", "c"⟩ := by
        simpa [PageResponse.feats] using h
      rw [hr]
      decide)

/-- C8: against a server returning pages of sizes 2000, 2000 and 500 with
`max_records` at its default 10000, `fetch_crime_data` issues exactly 3
page requests (not 4) and returns the 4500 records; the short page is a
normal stop. -/
theorem c8_three_requests :
    fetch_crime_requests c8Server 10000 = 3 ∧
    (fetch_crime_data c8Server 10000).length = 4500 := by
  have h0 : (c8Server 0).feats = List.replicate 2000 demoRec := rfl
  have h2000 : (c8Server 2000).feats = List.replicate 2000 demoRec := rfl
  have h4000 : (c8Server 4000).feats = List.replicate 500 demoRec := rfl
  have e1 : fetchLoop c8Server 10000 [] 0 =
      ((fetchLoop c8Server 10000 (List.replicate 2000 demoRec) 2000).1,
       (fetchLoop c8Server 10000 (List.replicate 2000 demoRec) 2000).2 + 1) := by
    have h := fetchLoop_step_full c8Server 10000 [] 0
      (by rw [h0, List.length_replicate])
      (by simp only [List.length_nil]; omega)
    rw [h0, List.nil_append, Nat.zero_add] at h
    exact h
  have e2 : fetchLoop c8Server 10000 (List.replicate 2000 demoRec) 2000 =
      ((fetchLoop c8Server 10000
          (List.replicate 2000 demoRec ++ List.replicate 2000 demoRec) 4000).1,
       (fetchLoop c8Server 10000
          (List.replicate 2000 demoRec ++ List.replicate 2000 demoRec) 4000).2
         + 1) := by
    have h := fetchLoop_step_full c8Server 10000
      (List.replicate 2000 demoRec) 2000
      (by rw [h2000, List.length_replicate])
      (by rw [List.length_replicate]; omega)
    rw [h2000, show 2000 + 2000 = 4000 from rfl] at h
    exact h
  have e3 : fetchLoop c8Server 10000
      (List.replicate 2000 demoRec ++ List.replicate 2000 demoRec) 4000 =
      ((List.replicate 2000 demoRec ++ List.replicate 2000 demoRec) ++
        List.replicate 500 demoRec, 1) := by
    have hne : (c8Server 4000).feats ≠ [] := by
      rw [h4000]
      intro hx
      have hlen := congrArg List.length hx
      rw [List.length_replicate, List.length_nil] at hlen
      exact absurd hlen (by decide)
    have hshort : ((c8Server 4000).feats).length < 2000 := by
      rw [h4000, List.length_replicate]
      omega
    have hcap : (List.replicate 2000 demoRec ++
        List.replicate 2000 demoRec).length +
        ((c8Server 4000).feats).length ≤ 10000 := by
      rw [h4000]
      simp only [List.length_append, List.length_replicate]
      omega
    have h := fetchLoop_last_short c8Server 10000
      (List.replicate 2000 demoRec ++ List.replicate 2000 demoRec) 4000
      hne hshort hcap
    rw [h4000] at h
    exact h
  constructor
  · rw [fetch_crime_requests, e1, e2, e3]
  · rw [fetch_crime_data, e1, e2, e3]
    show ((List.replicate 2000 demoRec ++ List.replicate 2000 demoRec) ++
      List.replicate 500 demoRec).length = 4500
    simp only [List.length_append, List.length_replicate]

/-- C9: `fetch_permit_summary` includes a row in the aggregation exactly
when its POSTAL field, coerced to text, starts with the postal prefix; the
prefix M9N excludes the postal M6H1A1 and includes M9N2K5. -/
theorem c9_postal_filter_iff (pfx : String) (rows : List PermitRow) :
    (∀ r : PermitRow, r ∈ postal_filter pfx rows ↔
      r ∈ rows ∧ str_startswith (pdStr r.POSTAL) pfx = true) ∧
    postal_filter "M9N" [⟨Cell.str "M6H1A1", "Deck"⟩,
      ⟨Cell.str "M9N2K5", "Fence"⟩] = [⟨Cell.str "M9N2K5", "Fence"⟩] ∧
    fetch_permit_summary "M9N" [⟨Cell.str "M6H1A1", "Deck"⟩,
      ⟨Cell.str "M9N2K5", "Fence"⟩] = [⟨"Fence", 1⟩] := by
  refine ⟨?_, by decide, by decide⟩
  intro r
  rw [postal_filter]
  exact List.mem_filter

/-- C10 witness: a page with no `features` key returns the accumulated
records after one request. -/
theorem c10_witness :
    fetchLoop (fun _ => ⟨none⟩) 10000 [⟨7, "x", "y", "z"⟩] 0 =
      ([⟨7, "x", "y", "z"⟩], 1) :=
  c10_empty_features_normal_stop _ 10000 _ 0 (Or.inl rfl)

end Wolverine
